import Mathlib

/-!
Shallow embedding of the chart editor/viewer geometry engine.

The source is a React chart editor (`ChartEditor`), a viewer
(`ChartViewer`) and the shared data interfaces (`Chart.tsx`).  JavaScript
numbers are modelled as `Int`: every operation used by the geometry code
is `+`, `-`, `min`, `max` and comparison, all of which are exact on
integers, and all concrete scenarios in the specification use integer
coordinates.  Pointer events carry `clientX`/`clientY` in device space;
the canvas rectangle contributes `rectLeft`/`rectTop` (its on-screen
origin) and `cw`/`ch` (its width/height).
-/

/-- Role tag of a chart button: `type?: 'normal' | 'exit'` in `Chart.tsx`,
with `'label'` additionally assigned by the editor. The field is optional
in the source, hence `Option Btype` below. -/
inductive Btype where
  | normal
  | label
  | exit
deriving DecidableEq, Repr

/-- One of the 8 compass resize directions produced by `getResizeDirection`. -/
inductive Dir where
  | n | s | e | w | ne | nw | se | sw
deriving DecidableEq, Repr

/-- A linkable range entity: the core only reads its id and display name. -/
structure Range where
  id : String
  name : String
deriving DecidableEq, Repr

/-- `ChartButton` from `Chart.tsx`. -/
structure ChartButton where
  id : String
  name : String
  color : String
  linkedItem : String
  x : Int
  y : Int
  width : Int
  height : Int
  type : Option Btype
deriving DecidableEq, Repr

/-- Pre-clamp candidate geometry computed by the `switch (resizeDirection)`
statement in `handleMouseMove`, before the boundary checks. -/
structure Geom where
  w : Int
  h : Int
  x : Int
  y : Int
deriving DecidableEq, Repr

/-- The `switch (resizeDirection)` block of `handleMouseMove`: candidate
`newWidth`, `newHeight`, `newX`, `newY` from the pointer's client
coordinates, the canvas origin and the current button, before the
containment clamp. `minSize = 50`. -/
def resizePre (clientX clientY rectLeft rectTop : Int) (dir : Dir)
    (b : ChartButton) : Geom :=
  let minSize : Int := 50
  match dir with
  | .e => { w := max minSize (clientX - (b.x + rectLeft)), h := b.height,
            x := b.x, y := b.y }
  | .s => { w := b.width, h := max minSize (clientY - (b.y + rectTop)),
            x := b.x, y := b.y }
  | .w =>
      let diffX := clientX - (b.x + rectLeft)
      { w := max minSize (b.width - diffX), h := b.height,
        x := b.x + diffX, y := b.y }
  | .n =>
      let diffY := clientY - (b.y + rectTop)
      { w := b.width, h := max minSize (b.height - diffY),
        x := b.x, y := b.y + diffY }
  | .se => { w := max minSize (clientX - (b.x + rectLeft)),
             h := max minSize (clientY - (b.y + rectTop)),
             x := b.x, y := b.y }
  | .sw =>
      let diffX := clientX - (b.x + rectLeft)
      { w := max minSize (b.width - diffX),
        h := max minSize (clientY - (b.y + rectTop)),
        x := b.x + diffX, y := b.y }
  | .ne =>
      let diffY := clientY - (b.y + rectTop)
      { w := max minSize (clientX - (b.x + rectLeft)),
        h := max minSize (b.height - diffY),
        x := b.x, y := b.y + diffY }
  | .nw =>
      let diffX := clientX - (b.x + rectLeft)
      let diffY := clientY - (b.y + rectTop)
      { w := max minSize (b.width - diffX),
        h := max minSize (b.height - diffY),
        x := b.x + diffX, y := b.y + diffY }

/-- The resize branch of `handleMouseMove` acting on the target button:
candidate geometry from `resizePre`, then the boundary checks
`newX = max 0 (min newX (cw - newWidth))`, the same for `newY`, then
`newWidth = min newWidth (cw - newX)` and `newHeight = min newHeight (ch - newY)`. -/
def resizeMoveB (clientX clientY rectLeft rectTop cw ch : Int) (dir : Dir)
    (b : ChartButton) : ChartButton :=
  let g := resizePre clientX clientY rectLeft rectTop dir b
  let nx := max 0 (min g.x (cw - g.w))
  let ny := max 0 (min g.y (ch - g.h))
  let nw2 := min g.w (cw - nx)
  let nh2 := min g.h (ch - ny)
  { b with x := nx, y := ny, width := nw2, height := nh2 }

/-- The dragging branch of `handleMouseMove` acting on the target button:
`newX = e.clientX - dragOffset.x - canvasRect.left`, clamped into
`[0, cw - width]`, likewise for `y`; width and height are untouched. -/
def dragMoveB (clientX clientY rectLeft rectTop cw ch offX offY : Int)
    (b : ChartButton) : ChartButton :=
  let newX := clientX - offX - rectLeft
  let newY := clientY - offY - rectTop
  let newX2 := max 0 (min newX (cw - b.width))
  let newY2 := max 0 (min newY (ch - b.height))
  { b with x := newX2, y := newY2 }

/-- One pointer-move event of an interaction session: a drag move (with the
session's captured offset) or a resize move in one of the 8 directions.
The canvas on-screen origin is carried per event because the source
recomputes `getBoundingClientRect()` on every event. -/
inductive MoveEv where
  | dragMove (clientX clientY rectLeft rectTop offX offY : Int)
  | resizeMove (dir : Dir) (clientX clientY rectLeft rectTop : Int)
deriving DecidableEq, Repr

/-- Apply one move event to the target button's geometry. -/
def applyMove (cw ch : Int) (b : ChartButton) : MoveEv → ChartButton
  | .dragMove cx cy rl rt ox oy => dragMoveB cx cy rl rt cw ch ox oy b
  | .resizeMove d cx cy rl rt => resizeMoveB cx cy rl rt cw ch d b

/-- Apply a whole sequence of move events in arrival order. -/
def applyMoves (cw ch : Int) (b : ChartButton) (ms : List MoveEv) : ChartButton :=
  ms.foldl (applyMove cw ch) b

/-- Containment invariant of the specification: the button's rectangle lies
fully inside the canvas. -/
def InBounds (cw ch : Int) (b : ChartButton) : Prop :=
  0 ≤ b.x ∧ 0 ≤ b.y ∧ b.x + b.width ≤ cw ∧ b.y + b.height ≤ ch

/-- Minimum-size invariant of the specification: both dimensions at least 50. -/
def MinSized (b : ChartButton) : Prop :=
  50 ≤ b.width ∧ 50 ≤ b.height

instance (cw ch : Int) (b : ChartButton) : Decidable (InBounds cw ch b) := by
  unfold InBounds; infer_instance

instance (b : ChartButton) : Decidable (MinSized b) := by
  unfold MinSized; infer_instance

/-- `handleAddButton` from the editor: builds the new button (default
geometry `120 × 40` at `(50, 50)`, linked to the first available range or
the `"label-only"` sentinel, type `normal` when any range exists else
`label`) and appends it to the collection.  `now` stands for
`String(Date.now())`.  Returns the updated collection together with the
new button, which the source also installs as `editingButton`. -/
def handleAddButton (now : String) (allRanges : List Range)
    (buttons : List ChartButton) : List ChartButton × ChartButton :=
  let newButton : ChartButton :=
    { id := now
      name := "Новая кнопка"
      color := "#60A5FA"
      linkedItem := match allRanges with
        | r :: _ => r.id
        | [] => "label-only"
      x := 50
      y := 50
      width := 120
      height := 40
      type := match allRanges with
        | _ :: _ => some .normal
        | [] => some .label }
  (buttons ++ [newButton], newButton)

/-- `handleSaveButtonProperties`: when a draft is being edited, replace the
stored button matched by id with the draft, verbatim. -/
def handleSaveButtonProperties (editingButton : Option ChartButton)
    (buttons : List ChartButton) : List ChartButton :=
  match editingButton with
  | some eb => buttons.map (fun btn => if btn.id == eb.id then eb else btn)
  | none => buttons

/-- `handleCancelButtonProperties`: when a draft is being edited and no
button with its id is in the collection, filter out buttons with its id. -/
def handleCancelButtonProperties (editingButton : Option ChartButton)
    (buttons : List ChartButton) : List ChartButton :=
  match editingButton with
  | some eb =>
      if ¬ buttons.any (fun b => b.id == eb.id) then
        buttons.filter (fun b => ¬ b.id == eb.id)
      else buttons
  | none => buttons

/-- The dragging branch of `handleMouseMove` acting on the whole
collection: look up the active button, compute the clamped position and
map over the collection, updating every button whose id matches. -/
def handleMouseMoveDrag (clientX clientY rectLeft rectTop cw ch offX offY : Int)
    (activeButtonId : String) (buttons : List ChartButton) : List ChartButton :=
  match buttons.find? (fun b => b.id == activeButtonId) with
  | none => buttons
  | some currentButton =>
      let newX := max 0 (min (clientX - offX - rectLeft) (cw - currentButton.width))
      let newY := max 0 (min (clientY - offY - rectTop) (ch - currentButton.height))
      buttons.map (fun btn =>
        if btn.id == activeButtonId then { btn with x := newX, y := newY } else btn)

/-- The dragging branch of `handleTouchMove`, which duplicates the mouse
logic verbatim with `touch.clientX`/`touch.clientY` in place of
`e.clientX`/`e.clientY`. -/
def handleTouchMoveDrag (clientX clientY rectLeft rectTop cw ch offX offY : Int)
    (activeButtonId : String) (buttons : List ChartButton) : List ChartButton :=
  match buttons.find? (fun b => b.id == activeButtonId) with
  | none => buttons
  | some currentButton =>
      let newX := max 0 (min (clientX - offX - rectLeft) (cw - currentButton.width))
      let newY := max 0 (min (clientY - offY - rectTop) (ch - currentButton.height))
      buttons.map (fun btn =>
        if btn.id == activeButtonId then { btn with x := newX, y := newY } else btn)

/-- Observable action taken by the viewer's `handleButtonClick`. -/
inductive ViewerEffect where
  | navigateToChartList
  | noop
  | displayRange (r : Range)
  | rangeNotFoundAlert
deriving DecidableEq, Repr

/-- `handleButtonClick` from `ChartViewer`: dispatch on the button's type.
Result is the emitted effect together with the new `displayedRange` and
`showMatrixView` states.  `exit` navigates back before any range lookup;
`label` does nothing; otherwise the linked range is looked up by id in
`allRanges` and either displayed (matrix view on) or reported missing with
`displayedRange` cleared. -/
def handleButtonClick (allRanges : List Range) (button : ChartButton)
    (displayedRange : Option Range) (showMatrixView : Bool) :
    ViewerEffect × Option Range × Bool :=
  if button.type = some .exit then
    (.navigateToChartList, displayedRange, showMatrixView)
  else if button.type = some .label then
    (.noop, displayedRange, showMatrixView)
  else
    match allRanges.find? (fun range => range.id == button.linkedItem) with
    | some linkedRange => (.displayRange linkedRange, some linkedRange, true)
    | none => (.rangeNotFoundAlert, none, showMatrixView)

/-- `getResizeDirection` from the editor: classify a pointer position
`(x, y)` relative to the button's bounding box of size
`rectWidth × rectHeight` into a resize direction, with an 8-unit
tolerance band and corners checked first. -/
def getResizeDirection (x y rectWidth rectHeight : Int) : Option Dir :=
  let tolerance : Int := 8
  if x < tolerance ∧ y < tolerance then some .nw
  else if x > rectWidth - tolerance ∧ y < tolerance then some .ne
  else if x < tolerance ∧ y > rectHeight - tolerance then some .sw
  else if x > rectWidth - tolerance ∧ y > rectHeight - tolerance then some .se
  else if x < tolerance then some .w
  else if x > rectWidth - tolerance then some .e
  else if y < tolerance then some .n
  else if y > rectHeight - tolerance then some .s
  else none

/-- Modelled from the spec wording of the hit-zone algorithm: tolerance
bands of 8 units from each side, corner zones taking priority over edge
zones, `none` outside all bands.  The spec fixes no order among the four
corner checks, so this definition deliberately checks them in a different
order from the source. -/
def classifySpec (x y w h : Int) : Option Dir :=
  let inL := x < 8
  let inR := x > w - 8
  let inT := y < 8
  let inB := y > h - 8
  if inB ∧ inR then some .se
  else if inB ∧ inL then some .sw
  else if inT ∧ inR then some .ne
  else if inT ∧ inL then some .nw
  else if inL then some .w
  else if inR then some .e
  else if inT then some .n
  else if inB then some .s
  else none

/-- Concrete 100 × 100 button used to instantiate the sequence invariant. -/
def seqDemoButton : ChartButton :=
  { id := "1", name := "b", color := "#000000", linkedItem := "r"
    x := 10, y := 10, width := 100, height := 100, type := some .normal }

/-- Concrete move sequence with pointers far outside the canvas. -/
def seqDemoMoves : List MoveEv :=
  [ .resizeMove .nw (-50) (-50) 0 0
  , .dragMove 2000 2000 0 0 0 0
  , .resizeMove .se 5000 (-3000) 0 0 ]

/-- Concrete minimum-sized button for the C2 witness. -/
def floorDemoButton : ChartButton :=
  { id := "2", name := "b", color := "#000000", linkedItem := "r"
    x := 200, y := 200, width := 60, height := 70, type := some .label }

/-- The button of specification scenario 3: at (10, 10), size 100 × 100. -/
def scenario3Button : ChartButton :=
  { id := "3", name := "b", color := "#000000", linkedItem := "r"
    x := 10, y := 10, width := 100, height := 100, type := some .normal }

/-- Button used for the C4 counterexample: flush against the right edge of
the 800 × 500 canvas. -/
def replayButton : ChartButton :=
  { id := "4", name := "b", color := "#000000", linkedItem := "r"
    x := 700, y := 0, width := 100, height := 50, type := some .normal }

/-- Button of the C6 counterexample: at x = 10 with width 100. -/
def edgeDemoButton : ChartButton :=
  { id := "6", name := "b", color := "#000000", linkedItem := "r"
    x := 10, y := 10, width := 100, height := 100, type := some .normal }

/-- Range registry for the C7 witness. -/
def demoRanges : List Range := [{ id := "R0", name := "Range zero" }]

/-- Exit button for the C7 witness. -/
def exitDemoButton : ChartButton :=
  { id := "e7", name := "exit", color := "#000000", linkedItem := ""
    x := 0, y := 0, width := 120, height := 40, type := some .exit }

/-- Normal button linked to the absent range id R1, as in specification
scenario 5. -/
def danglingDemoButton : ChartButton :=
  { id := "n7", name := "go", color := "#000000", linkedItem := "R1"
    x := 0, y := 0, width := 120, height := 40, type := some .normal }

/-- Target button of the C9 witness. -/
def frameDemoA : ChartButton :=
  { id := "a", name := "target", color := "#111111", linkedItem := "r"
    x := 0, y := 0, width := 100, height := 80, type := some .normal }

/-- Bystander button of the C9 witness. -/
def frameDemoB : ChartButton :=
  { id := "9", name := "other", color := "#222222", linkedItem := "q"
    x := 400, y := 300, width := 60, height := 60, type := some .label }

/-- Collection of the C9 witness. -/
def frameDemoButtons : List ChartButton := [frameDemoA, frameDemoB]

/-- Draft source button of the C10 instance, before the edit. -/
def demoSavedOrig : ChartButton :=
  { id := "10", name := "edited", color := "#333333", linkedItem := "r"
    x := 700, y := 400, width := 120, height := 40, type := some .normal }

/-- Draft with width entered as 0 (blank or 0 parses to 0 in the dialog). -/
def demoDraft : ChartButton := { demoSavedOrig with width := 0 }

/-- A drag move keeps the containment and minimum-size invariants: width and
height are untouched and the position is clamped into the valid interval. -/
lemma dragMoveB_inv (cx cy rl rt cw ch ox oy : Int) (b : ChartButton)
    (hin : InBounds cw ch b) (hmin : MinSized b) :
    InBounds cw ch (dragMoveB cx cy rl rt cw ch ox oy b) ∧
      MinSized (dragMoveB cx cy rl rt cw ch ox oy b) := by
  simp only [dragMoveB, InBounds, MinSized] at *
  omega

/-- A resize move establishes both invariants from minimum-sizedness alone,
for any pointer position, provided the canvas is at least 50 × 50: the size
floor runs first, then the position clamp, then the size reclamp against
the final position. -/
lemma resizeMoveB_inv (cx cy rl rt cw ch : Int) (d : Dir) (b : ChartButton)
    (hcw : 50 ≤ cw) (hch : 50 ≤ ch) (hmin : MinSized b) :
    InBounds cw ch (resizeMoveB cx cy rl rt cw ch d b) ∧
      MinSized (resizeMoveB cx cy rl rt cw ch d b) := by
  cases d <;>
    (simp only [resizeMoveB, resizePre, InBounds, MinSized] at *; omega)

/-- C1: for every sequence of drag or resize move events, starting from a
minimum-sized button contained in a canvas of dimensions at least 100, the
button geometry after the moves still satisfies 0 ≤ x, 0 ≤ y,
x + width ≤ cw, y + height ≤ ch, and width ≥ 50, height ≥ 50 — even when
pointer coordinates lie outside the canvas.  The sequence is arbitrary, so
the invariant holds after every prefix, i.e. after each applied move. -/
theorem moves_preserve_invariants (cw ch : Int) (b : ChartButton)
    (ms : List MoveEv) (hcw : 100 ≤ cw) (hch : 100 ≤ ch)
    (hin : InBounds cw ch b) (hmin : MinSized b) :
    InBounds cw ch (applyMoves cw ch b ms) ∧ MinSized (applyMoves cw ch b ms) := by
  induction ms generalizing b with
  | nil => exact ⟨hin, hmin⟩
  | cons m ms ih =>
      have hcw2 : (50 : Int) ≤ cw := by omega
      have hch2 : (50 : Int) ≤ ch := by omega
      have hstep : InBounds cw ch (applyMove cw ch b m) ∧
          MinSized (applyMove cw ch b m) := by
        cases m with
        | dragMove cx cy rl rt ox oy =>
            exact dragMoveB_inv cx cy rl rt cw ch ox oy b hin hmin
        | resizeMove d cx cy rl rt =>
            exact resizeMoveB_inv cx cy rl rt cw ch d b hcw2 hch2 hmin
      simpa [applyMoves] using ih (applyMove cw ch b m) hstep.1 hstep.2

/-- Witness for C1 at the concrete button, canvas 800 × 500 and a concrete
out-of-bounds move sequence. -/
theorem moves_preserve_invariants_witness :
    ((100 : Int) ≤ 800 ∧ (100 : Int) ≤ 500 ∧ InBounds 800 500 seqDemoButton ∧
      MinSized seqDemoButton) ∧
    (InBounds 800 500 (applyMoves 800 500 seqDemoButton seqDemoMoves) ∧
      MinSized (applyMoves 800 500 seqDemoButton seqDemoMoves)) :=
  ⟨⟨by decide, by decide, by decide, by decide⟩,
    moves_preserve_invariants 800 500 seqDemoButton seqDemoMoves
      (by decide) (by decide) (by decide) (by decide)⟩

/-- C2 counterexample: on an 800 × 500 canvas, add a button to an empty
collection (default geometry 120 × 40) and complete a drag gesture on it;
the collection then contains a button of height 40 < 50, refuting the
claimed minimum-size invariant after drag completion. -/
theorem newButtonDragBelowFloor :
    ¬ (∀ b ∈ handleMouseMoveDrag 300 300 0 0 800 500 20 20 "1"
          (handleAddButton "1" [] []).1, MinSized b) := by
  decide

/-- C2 amended: the minimum-size floor is enforced only by resize moves —
after any resize move on a minimum-sized button in a canvas of at least
50 × 50, width ≥ 50 and height ≥ 50 hold; a drag move leaves width and
height unchanged, and the add action applies no floor: a newly added
button has height 40, hence still height 40 < 50 after a drag completes. -/
theorem minSizeFloorScope :
    (∀ cx cy rl rt cw ch : Int, ∀ d : Dir, ∀ b : ChartButton,
        50 ≤ cw → 50 ≤ ch → MinSized b →
        MinSized (resizeMoveB cx cy rl rt cw ch d b)) ∧
    (∀ cx cy rl rt cw ch ox oy : Int, ∀ b : ChartButton,
        (dragMoveB cx cy rl rt cw ch ox oy b).width = b.width ∧
        (dragMoveB cx cy rl rt cw ch ox oy b).height = b.height) ∧
    (∀ (now : String) (rs : List Range) (bs : List ChartButton),
        ((handleAddButton now rs bs).2).height = 40) :=
  ⟨fun cx cy rl rt cw ch d b h1 h2 h3 =>
      (resizeMoveB_inv cx cy rl rt cw ch d b h1 h2 h3).2,
   fun _ _ _ _ _ _ _ _ _ => ⟨rfl, rfl⟩,
   fun _ _ _ => rfl⟩

/-- Witness for C2 amended at a concrete resize with the pointer far
outside the canvas. -/
theorem minSizeFloorScope_witness :
    ((50 : Int) ≤ 800 ∧ (50 : Int) ≤ 500 ∧ MinSized floorDemoButton) ∧
      MinSized (resizeMoveB 900 900 0 0 800 500 .nw floorDemoButton) :=
  ⟨⟨by decide, by decide, by decide⟩,
    minSizeFloorScope.1 900 900 0 0 800 500 .nw floorDemoButton
      (by decide) (by decide) (by decide)⟩

/-- C3 counterexample: on the 800 × 500 canvas, a single `nw` resize move
with the pointer at canvas-local (-50, -50) yields x = y = 0 but
width = height = 160, so the rectangle extends to (160, 160) — past the
button's original bottom-right corner (110, 110), refuting the claim that
the result never exceeds that corner. -/
theorem scenario3ExceedsCorner :
    (resizeMoveB (-50) (-50) 0 0 800 500 .nw scenario3Button).x = 0 ∧
    (resizeMoveB (-50) (-50) 0 0 800 500 .nw scenario3Button).y = 0 ∧
    ¬ ((resizeMoveB (-50) (-50) 0 0 800 500 .nw scenario3Button).x +
        (resizeMoveB (-50) (-50) 0 0 800 500 .nw scenario3Button).width ≤ 110) := by
  decide

/-- C3 amended: for the button at (10, 10) of size 100 × 100 on the
800 × 500 canvas, one `nw` resize move with the pointer at canvas-local
(-50, -50) clamps x and y to 0, but the width/height reclamp caps the
rectangle at the canvas, not at the original bottom-right corner: width
and height become 160 (the original extent 110 plus the 50-unit pointer
overshoot), so the result spans (0, 0)–(160, 160), fully inside the
canvas but past the original corner (110, 110). -/
theorem scenario3Result :
    resizeMoveB (-50) (-50) 0 0 800 500 .nw scenario3Button =
      { scenario3Button with x := 0, y := 0, width := 160, height := 160 } ∧
    InBounds 800 500 (resizeMoveB (-50) (-50) 0 0 800 500 .nw scenario3Button) := by
  decide

/-- C4 counterexample: an `e` resize move with the pointer at canvas-local
x = 900 (beyond the right edge) applied once gives x = 600, width = 200;
replaying the identical event gives x = 500, width = 300 — replaying the
last move event is not idempotent once the containment clamp engages. -/
theorem resizeReplayNotIdempotent :
    resizeMoveB 900 25 0 0 800 500 .e (resizeMoveB 900 25 0 0 800 500 .e replayButton) ≠
      resizeMoveB 900 25 0 0 800 500 .e replayButton := by
  decide

/-- When the candidate position already lies inside the valid interval, the
containment clamp and reclamp of a resize move change nothing: the result
is exactly the candidate geometry. -/
lemma resizeMoveB_noclamp (cx cy rl rt cw ch : Int) (d : Dir) (b : ChartButton)
    (h1 : 0 ≤ (resizePre cx cy rl rt d b).x)
    (h2 : (resizePre cx cy rl rt d b).x ≤ cw - (resizePre cx cy rl rt d b).w)
    (h3 : 0 ≤ (resizePre cx cy rl rt d b).y)
    (h4 : (resizePre cx cy rl rt d b).y ≤ ch - (resizePre cx cy rl rt d b).h) :
    resizeMoveB cx cy rl rt cw ch d b =
      { b with x := (resizePre cx cy rl rt d b).x
               y := (resizePre cx cy rl rt d b).y
               width := (resizePre cx cy rl rt d b).w
               height := (resizePre cx cy rl rt d b).h } := by
  simp only [resizeMoveB, ChartButton.mk.injEq, true_and, and_true]
  refine ⟨?_, ?_, ?_, ?_⟩ <;> omega

/-- Replaying a resize move on its own unclamped result recomputes the same
candidate geometry: the pointer-to-anchor differences vanish on the second
run and the minimum-size floor is already satisfied. -/
lemma resizePre_replay (cx cy rl rt : Int) (d : Dir) (b : ChartButton) :
    resizePre cx cy rl rt d
      { b with x := (resizePre cx cy rl rt d b).x
               y := (resizePre cx cy rl rt d b).y
               width := (resizePre cx cy rl rt d b).w
               height := (resizePre cx cy rl rt d b).h } =
      resizePre cx cy rl rt d b := by
  cases d <;> (simp only [resizePre, Geom.mk.injEq, and_true, true_and] <;> omega)

/-- C4 amended: replaying the last drag move event is idempotent for every
button, offset and pointer position (also outside the canvas); replaying a
resize move event is idempotent provided the containment clamp does not
alter the candidate position on the first application, i.e. the candidate
x/y already lie in [0, cw − width] × [0, ch − height]; when the clamp
engages, the replay can move or grow the button further. -/
theorem moveReplayIdempotent :
    (∀ cx cy rl rt cw ch ox oy : Int, ∀ b : ChartButton,
        dragMoveB cx cy rl rt cw ch ox oy (dragMoveB cx cy rl rt cw ch ox oy b) =
          dragMoveB cx cy rl rt cw ch ox oy b) ∧
    (∀ cx cy rl rt cw ch : Int, ∀ d : Dir, ∀ b : ChartButton,
        0 ≤ (resizePre cx cy rl rt d b).x →
        (resizePre cx cy rl rt d b).x ≤ cw - (resizePre cx cy rl rt d b).w →
        0 ≤ (resizePre cx cy rl rt d b).y →
        (resizePre cx cy rl rt d b).y ≤ ch - (resizePre cx cy rl rt d b).h →
        resizeMoveB cx cy rl rt cw ch d (resizeMoveB cx cy rl rt cw ch d b) =
          resizeMoveB cx cy rl rt cw ch d b) := by
  constructor
  · intro cx cy rl rt cw ch ox oy b
    simp only [dragMoveB]
  · intro cx cy rl rt cw ch d b h1 h2 h3 h4
    have e1 := resizeMoveB_noclamp cx cy rl rt cw ch d b h1 h2 h3 h4
    have e2 := resizePre_replay cx cy rl rt d b
    rw [e1, resizeMoveB_noclamp cx cy rl rt cw ch d _
          (by rw [e2]; exact h1) (by rw [e2]; exact h2)
          (by rw [e2]; exact h3) (by rw [e2]; exact h4), e2]

/-- Witness for C4 amended: a drag replay and an unclamped `se` resize
replay at concrete inputs. -/
theorem moveReplayIdempotent_witness :
    (dragMoveB 40 60 0 0 800 500 5 5
        (dragMoveB 40 60 0 0 800 500 5 5 floorDemoButton) =
      dragMoveB 40 60 0 0 800 500 5 5 floorDemoButton) ∧
    ((0 ≤ (resizePre 250 250 0 0 .se seqDemoButton).x ∧
        (resizePre 250 250 0 0 .se seqDemoButton).x ≤
          800 - (resizePre 250 250 0 0 .se seqDemoButton).w ∧
        0 ≤ (resizePre 250 250 0 0 .se seqDemoButton).y ∧
        (resizePre 250 250 0 0 .se seqDemoButton).y ≤
          500 - (resizePre 250 250 0 0 .se seqDemoButton).h) ∧
      resizeMoveB 250 250 0 0 800 500 .se
          (resizeMoveB 250 250 0 0 800 500 .se seqDemoButton) =
        resizeMoveB 250 250 0 0 800 500 .se seqDemoButton) :=
  ⟨moveReplayIdempotent.1 40 60 0 0 800 500 5 5 floorDemoButton,
   ⟨⟨by decide, by decide, by decide, by decide⟩,
    moveReplayIdempotent.2 250 250 0 0 800 500 .se seqDemoButton
      (by decide) (by decide) (by decide) (by decide)⟩⟩

/-- C5: evaluating the code at the failing input.  Add a button to an
empty collection and cancel its property dialog while it is still the
draft: the cancel handler's guard requires the draft's id to be absent
from the collection before it filters, which is never the case right after
an add, so the never-confirmed button stays in the collection instead of
being removed. -/
theorem cancelKeepsNewButton :
    handleCancelButtonProperties (some (handleAddButton "1" [] []).2)
        (handleAddButton "1" [] []).1 =
      (handleAddButton "1" [] []).1 ∧
    (handleAddButton "1" [] []).1 ≠ ([] : List ChartButton) := by
  decide

/-- C6 counterexample: a `w` resize with the pointer at canvas-local
x = 100 makes the minimum-size floor bind (candidate width 10 is raised
to 50) while x still tracks the pointer, so the pre-clamp right edge
becomes 100 + 50 = 150 instead of the original 10 + 100 = 110 — the right
edge is not preserved when the floor binds. -/
theorem wResizeFloorMovesRightEdge :
    (resizePre 100 0 0 0 .w edgeDemoButton).x + (resizePre 100 0 0 0 .w edgeDemoButton).w
      ≠ edgeDemoButton.x + edgeDemoButton.width := by
  decide

/-- C6 amended: for a `w` resize, x and width are recomputed from the
pointer relative to the east edge, and before the containment clamp the
right edge x + width equals its pre-move value provided the minimum-size
floor does not bind, i.e. the pointer's canvas-local x is at most
x + width − 50; symmetrically for `n` the bottom edge y + height is
preserved when the pointer's canvas-local y is at most y + height − 50.
When the floor binds, x (resp. y) still tracks the pointer, so the
anchored edge moves to pointer + 50. -/
theorem wnResizePreservesOppositeEdge :
    (∀ cx cy rl rt : Int, ∀ b : ChartButton,
        cx - rl ≤ b.x + b.width - 50 →
        (resizePre cx cy rl rt .w b).x + (resizePre cx cy rl rt .w b).w =
          b.x + b.width) ∧
    (∀ cx cy rl rt : Int, ∀ b : ChartButton,
        cy - rt ≤ b.y + b.height - 50 →
        (resizePre cx cy rl rt .n b).y + (resizePre cx cy rl rt .n b).h =
          b.y + b.height) := by
  constructor
  · intro cx cy rl rt b h
    simp only [resizePre]
    omega
  · intro cx cy rl rt b h
    simp only [resizePre]
    omega

/-- Witness for C6 amended: concrete `w` and `n` resizes where the floor
does not bind. -/
theorem wnResizePreservesOppositeEdge_witness :
    ((30 : Int) - 0 ≤ edgeDemoButton.x + edgeDemoButton.width - 50 ∧
      (resizePre 30 0 0 0 .w edgeDemoButton).x +
          (resizePre 30 0 0 0 .w edgeDemoButton).w =
        edgeDemoButton.x + edgeDemoButton.width) ∧
    ((40 : Int) - 0 ≤ edgeDemoButton.y + edgeDemoButton.height - 50 ∧
      (resizePre 0 40 0 0 .n edgeDemoButton).y +
          (resizePre 0 40 0 0 .n edgeDemoButton).h =
        edgeDemoButton.y + edgeDemoButton.height) :=
  ⟨⟨by decide,
      wnResizePreservesOppositeEdge.1 30 0 0 0 edgeDemoButton (by decide)⟩,
   ⟨by decide,
      wnResizePreservesOppositeEdge.2 0 40 0 0 edgeDemoButton (by decide)⟩⟩

/-- C7: viewer-mode button activation dispatches exactly by role.  Role
`exit` emits navigate-to-chart-list with the state untouched, and the
result does not depend on the supplied ranges at all (no range lookup);
role `label` is a no-op; role `normal` looks up the linked range id among
the supplied ranges and, when found, displays that range (matrix view on),
while when not found it emits the user-visible lookup-failure alert and
leaves the displayed-range state unset. -/
theorem buttonClickDispatch (allRanges : List Range) (b : ChartButton)
    (dr : Option Range) (sm : Bool) :
    (b.type = some .exit →
        handleButtonClick allRanges b dr sm = (.navigateToChartList, dr, sm) ∧
        ∀ rs2 : List Range,
          handleButtonClick rs2 b dr sm = handleButtonClick allRanges b dr sm) ∧
    (b.type = some .label →
        handleButtonClick allRanges b dr sm = (.noop, dr, sm)) ∧
    (b.type = some .normal →
        (∀ r : Range,
            allRanges.find? (fun range => range.id == b.linkedItem) = some r →
            handleButtonClick allRanges b dr sm = (.displayRange r, some r, true)) ∧
        (allRanges.find? (fun range => range.id == b.linkedItem) = none →
            handleButtonClick allRanges b dr sm = (.rangeNotFoundAlert, none, sm))) := by
  refine ⟨?_, ?_, ?_⟩
  · intro hx
    constructor
    · simp [handleButtonClick, hx]
    · intro rs2
      simp [handleButtonClick, hx]
  · intro hl
    simp [handleButtonClick, hl]
  · intro hn
    constructor
    · intro r hfind
      simp [handleButtonClick, hn, hfind]
    · intro hfind
      simp [handleButtonClick, hn, hfind]

/-- Witness for C7: the exit role navigates without consulting the ranges,
and a normal button linked to the missing id R1 alerts and leaves the
displayed range unset. -/
theorem buttonClickDispatch_witness :
    (exitDemoButton.type = some .exit ∧
      handleButtonClick demoRanges exitDemoButton none false =
        (.navigateToChartList, none, false)) ∧
    (danglingDemoButton.type = some .normal ∧
      demoRanges.find? (fun range => range.id == danglingDemoButton.linkedItem) =
        none ∧
      handleButtonClick demoRanges danglingDemoButton none false =
        (.rangeNotFoundAlert, none, false)) :=
  ⟨⟨by decide,
      ((buttonClickDispatch demoRanges exitDemoButton none false).1 rfl).1⟩,
   ⟨by decide, by decide,
      ((buttonClickDispatch demoRanges danglingDemoButton none false).2.2 rfl).2
        (by decide)⟩⟩

set_option maxHeartbeats 1600000 in
/-- C8: for every button box with width and height exceeding 16 (twice the
8-unit tolerance), the source classifier agrees with the band/corner
description of the specification — corner zones take priority, then single
edges, `none` outside all bands, independently of the order the corners
are checked in — and in particular a position within 8 units of the left
edge and not within 8 units of top or bottom classifies as `w`. -/
theorem resizeDirectionBands (x y w h : Int) (hw : 16 < w) (hh : 16 < h) :
    getResizeDirection x y w h = classifySpec x y w h ∧
    (x < 8 → ¬ y < 8 → ¬ y > h - 8 →
      getResizeDirection x y w h = some .w) := by
  constructor
  · simp only [getResizeDirection, classifySpec]
    split_ifs <;> first | rfl | omega
  · intro h1 h2 h3
    simp only [getResizeDirection]
    split_ifs <;> first | rfl | omega

/-- Witness for C8 on a 120 × 40 box: the point (3, 20) sits in the left
band only and classifies as `w`. -/
theorem resizeDirectionBands_witness :
    ((16 : Int) < 120 ∧ (16 : Int) < 40 ∧ (3 : Int) < 8 ∧ ¬ (20 : Int) < 8 ∧
      ¬ (20 : Int) > 40 - 8) ∧
    (getResizeDirection 3 20 120 40 = classifySpec 3 20 120 40 ∧
      getResizeDirection 3 20 120 40 = some .w) :=
  ⟨⟨by decide, by decide, by decide, by decide, by decide⟩,
   ⟨(resizeDirectionBands 3 20 120 40 (by decide) (by decide)).1,
    (resizeDirectionBands 3 20 120 40 (by decide) (by decide)).2
      (by decide) (by decide) (by decide)⟩⟩

/-- C9: on a drag move event (mouse, and identically touch, whose drag
branch duplicates the mouse logic), the collection keeps its length, every
button keeps its id, name, color, link, role, width and height, and every
button other than the target is entirely unchanged; only the target's x
and y change. -/
theorem dragMoveCollectionFrame (cx cy rl rt cw ch ox oy : Int) (aid : String)
    (bs : List ChartButton) :
    handleTouchMoveDrag cx cy rl rt cw ch ox oy aid bs =
      handleMouseMoveDrag cx cy rl rt cw ch ox oy aid bs ∧
    (handleMouseMoveDrag cx cy rl rt cw ch ox oy aid bs).length = bs.length ∧
    ∀ i : Nat, ∀ b b2 : ChartButton, bs.get? i = some b →
      (handleMouseMoveDrag cx cy rl rt cw ch ox oy aid bs).get? i = some b2 →
      (b2.id = b.id ∧ b2.name = b.name ∧ b2.color = b.color ∧
        b2.linkedItem = b.linkedItem ∧ b2.width = b.width ∧
        b2.height = b.height ∧ b2.type = b.type) ∧
      (¬ b.id = aid → b2 = b) := by
  refine ⟨rfl, ?_, ?_⟩
  · unfold handleMouseMoveDrag
    cases hf : bs.find? (fun b => b.id == aid) with
    | none => rfl
    | some cur => simp
  · intro i b b2 hb hb2
    unfold handleMouseMoveDrag at hb2
    cases hf : bs.find? (fun b => b.id == aid) with
    | none =>
        rw [hf, hb] at hb2
        cases hb2
        exact ⟨⟨rfl, rfl, rfl, rfl, rfl, rfl, rfl⟩, fun _ => rfl⟩
    | some cur =>
        rw [hf, List.get?_map, hb] at hb2
        simp only [Option.map_some', Option.some.injEq] at hb2
        subst hb2
        by_cases hid : (b.id == aid) = true
        · rw [if_pos hid]
          exact ⟨⟨rfl, rfl, rfl, rfl, rfl, rfl, rfl⟩,
            fun hne => absurd (by simpa using hid) hne⟩
        · rw [if_neg hid]
          exact ⟨⟨rfl, rfl, rfl, rfl, rfl, rfl, rfl⟩, fun _ => rfl⟩

/-- Witness for C9: dragging button `a` moves it to (290, 290), keeping all
its non-position fields; the bystander is untouched. -/
theorem dragMoveCollectionFrame_witness :
    ((frameDemoButtons.get? 0 = some frameDemoA ∧
        (handleMouseMoveDrag 300 300 0 0 800 500 10 10 "a" frameDemoButtons).get? 0 =
          some { frameDemoA with x := 290, y := 290 }) ∧
      (frameDemoButtons.get? 1 = some frameDemoB ∧
        (handleMouseMoveDrag 300 300 0 0 800 500 10 10 "a" frameDemoButtons).get? 1 =
          some frameDemoB ∧ ¬ frameDemoB.id = "a")) ∧
    (({ frameDemoA with x := 290, y := 290 } : ChartButton).width =
        frameDemoA.width ∧
      ({ frameDemoA with x := 290, y := 290 } : ChartButton).height =
        frameDemoA.height) :=
  ⟨⟨⟨by decide, by decide⟩, ⟨by decide, by decide, by decide⟩⟩,
    ⟨((dragMoveCollectionFrame 300 300 0 0 800 500 10 10 "a" frameDemoButtons).2.2
        0 frameDemoA { frameDemoA with x := 290, y := 290 }
        (by decide) (by decide)).1.2.2.2.2.1,
     ((dragMoveCollectionFrame 300 300 0 0 800 500 10 10 "a" frameDemoButtons).2.2
        0 frameDemoA { frameDemoA with x := 290, y := 290 }
        (by decide) (by decide)).1.2.2.2.2.2.1⟩⟩

/-- C10: confirming the property dialog replaces the stored button matched
by id with the draft verbatim — any collection member carrying the draft's
id is the draft itself, with no minimum-size floor and no containment
clamp applied — and in particular a draft with width 0 is stored with
width 0 < 50. -/
theorem savePropertiesVerbatim :
    (∀ (bs : List ChartButton) (eb b : ChartButton),
        b ∈ handleSaveButtonProperties (some eb) bs → b.id = eb.id → b = eb) ∧
    (∃ bs : List ChartButton, ∃ eb : ChartButton,
        eb.width < 50 ∧ eb ∈ handleSaveButtonProperties (some eb) bs) := by
  constructor
  · intro bs eb b hmem hid
    simp only [handleSaveButtonProperties, List.mem_map] at hmem
    obtain ⟨a, _, hfa⟩ := hmem
    by_cases h : (a.id == eb.id) = true
    · rw [if_pos h] at hfa
      exact hfa.symm
    · rw [if_neg h] at hfa
      subst hfa
      exact absurd (by simpa using hid) h
  · exact ⟨[demoSavedOrig], demoDraft, by decide, by decide⟩

/-- Witness for C10: the width-0 draft is a member of the saved collection
carrying its own id, and the theorem identifies it with the draft. -/
theorem savePropertiesVerbatim_witness :
    (demoDraft ∈ handleSaveButtonProperties (some demoDraft) [demoSavedOrig] ∧
      demoDraft.id = demoDraft.id ∧ demoDraft.width < 50) ∧
    demoDraft = demoDraft :=
  ⟨⟨by decide, rfl, by decide⟩,
    savePropertiesVerbatim.1 [demoSavedOrig] demoDraft demoDraft (by decide) rfl⟩
